import Mathlib

/-!
Shallow embedding of the policy-statement synthesizer and resource composer
of the `pulumi_tech_holiday` repository, together with theorems settling the
specification claims about them.

Sources embedded:
* `src/app_layer/policy_config.py` — static action tables and the statement
  synthesizers `create_dynamodb_policy_statement` / `create_s3_policy_statement`;
* `infrastructure/common/apigateway.py` — the `LambdaRestApi` composer
  (`add_proxy_route`, `add_root_route`, `deploy`);
* `infrastructure/common/s3.py` / `dynamoDB.py` — resource naming and the
  `S3BucketResources` bundle;
* `infrastructure/common/iam.py` and `infrastructure/app_layer/iam_policies.py`
  — policy-document assembly.

Python exceptions are embedded as `Except` errors; Pulumi resource objects are
embedded as plain records of the statically-known inputs the claims speak
about (names, dependency lists, configuration flags).
-/

namespace Pulumi

/-- One IAM policy statement as built by `policy_config.py`: an effect, a list
of action names and a resource scope string. -/
structure PolicyStatement where
  Effect : String
  Action : List String
  Resource : String
deriving Repr, DecidableEq

/-- Embeds the `ValueError` raised by the statement synthesizers: it carries
the offending access-level value and the list of valid keys (the Python
message interpolates exactly these two data). -/
inductive PolicyError where
  | invalidAccessLevel (value : String) (valid : List String)
deriving Repr, DecidableEq

/-- One entry of a static policy table: a description and an action list. -/
structure PolicyConfig where
  description : String
  actions : List String
deriving Repr, DecidableEq

/-- The `DYNAMODB_POLICIES` dict of `policy_config.py`, in source key order. -/
def DYNAMODB_POLICIES : List (String × PolicyConfig) :=
  [("full_access",
    ⟨"Full CRUD access to DynamoDB table",
     ["dynamodb:PutItem", "dynamodb:GetItem", "dynamodb:UpdateItem",
      "dynamodb:DeleteItem", "dynamodb:Scan", "dynamodb:Query",
      "dynamodb:BatchGetItem", "dynamodb:BatchWriteItem"]⟩),
   ("read_only",
    ⟨"Read-only access to DynamoDB table",
     ["dynamodb:GetItem", "dynamodb:Scan", "dynamodb:Query",
      "dynamodb:BatchGetItem"]⟩),
   ("write_only",
    ⟨"Write-only access to DynamoDB table",
     ["dynamodb:PutItem", "dynamodb:UpdateItem", "dynamodb:DeleteItem",
      "dynamodb:BatchWriteItem"]⟩)]

/-- The `S3_POLICIES` dict of `policy_config.py`, in source key order. -/
def S3_POLICIES : List (String × PolicyConfig) :=
  [("full_access",
    ⟨"Full access to S3 bucket and objects",
     ["s3:GetObject", "s3:PutObject", "s3:DeleteObject", "s3:ListBucket",
      "s3:GetObjectVersion", "s3:DeleteObjectVersion", "s3:PutObjectAcl",
      "s3:GetObjectAcl"]⟩),
   ("read_only",
    ⟨"Read-only access to S3 bucket and objects",
     ["s3:GetObject", "s3:ListBucket", "s3:GetObjectVersion",
      "s3:GetObjectAcl"]⟩),
   ("write_only",
    ⟨"Write-only access to S3 bucket and objects",
     ["s3:PutObject", "s3:DeleteObject", "s3:DeleteObjectVersion",
      "s3:PutObjectAcl"]⟩),
   ("list_only",
    ⟨"List-only access to S3 bucket", ["s3:ListBucket"]⟩)]

/-- Key lookup in a policy table (Python `dict[key]` / `key in dict`). -/
def lookupPolicy (tbl : List (String × PolicyConfig)) (k : String) :
    Option PolicyConfig :=
  (tbl.find? (fun p => p.1 == k)).map Prod.snd

/-- The key list of a policy table (Python `list(d.keys())`). -/
def policyKeys (tbl : List (String × PolicyConfig)) : List String :=
  tbl.map Prod.fst

/-- `listIsInfix needle hay` is true when `needle` occurs as a contiguous
sublist of `hay`. -/
def listIsInfix (needle : List Char) : List Char → Bool
  | [] => needle.isEmpty
  | c :: rest => needle.isPrefixOf (c :: rest) || listIsInfix needle rest

/-- Python's substring test `needle in hay` on strings. -/
def strContains (hay needle : String) : Bool :=
  listIsInfix needle.toList hay.toList

/-- `create_dynamodb_policy_statement` of `policy_config.py`: validates the
access level against `DYNAMODB_POLICIES` and returns a single statement
scoped to the table ARN. -/
def create_dynamodb_policy_statement (table_arn : String)
    (access_level : String) : Except PolicyError PolicyStatement :=
  match lookupPolicy DYNAMODB_POLICIES access_level with
  | none => .error (.invalidAccessLevel access_level
      (policyKeys DYNAMODB_POLICIES))
  | some cfg => .ok ⟨"Allow", cfg.actions, table_arn⟩

/-- `create_s3_policy_statement` of `policy_config.py`: validates the access
level against `S3_POLICIES`; for `list_only` returns one bucket-scoped
statement; otherwise splits the action list on the substring `"Object"` into
bucket-level and object-level statements, the latter scoped to `arn ++ "/*"`,
emitting only non-empty groups. -/
def create_s3_policy_statement (bucket_arn : String)
    (access_level : String) : Except PolicyError (List PolicyStatement) :=
  match lookupPolicy S3_POLICIES access_level with
  | none => .error (.invalidAccessLevel access_level (policyKeys S3_POLICIES))
  | some cfg =>
    if access_level == "list_only" then
      .ok [⟨"Allow", cfg.actions, bucket_arn⟩]
    else
      let bucket_actions := cfg.actions.filter
        (fun action => !(strContains action "Object"))
      let object_actions := cfg.actions.filter
        (fun action => strContains action "Object")
      .ok ((if bucket_actions.isEmpty then []
            else [⟨"Allow", bucket_actions, bucket_arn⟩]) ++
           (if object_actions.isEmpty then []
            else [⟨"Allow", object_actions, bucket_arn ++ "/*"⟩]))

/-- Replaces every occurrence of the character `old` by the char list `repl`
in a char list. -/
def replaceCharWith (old : Char) (repl : List Char) : List Char → List Char
  | [] => []
  | c :: rest => (if c == old then repl else [c]) ++ replaceCharWith old repl rest

/-- Python `str.replace(old, new)` specialized to the single-character
patterns used by `apigateway.py` (`"{"`, `"}"`, `"+"`). -/
def pyReplaceChar (s : String) (old : Char) (repl : String) : String :=
  ⟨replaceCharWith old repl.data s.data⟩

/-- Python `str.lower()` (character-wise lowercasing, which is all the ASCII
method verbs of the source need). -/
def pyLower (s : String) : String :=
  ⟨s.data.map Char.toLower⟩

/-- One API Gateway Lambda-proxy integration, identified by its declared
resource name (`aws.apigateway.Integration` in `apigateway.py`). -/
structure Integration where
  name : String
deriving Repr, DecidableEq

/-- The `InvalidState` lifecycle error the specification ascribes to the
resource composer. The Python class never raises it; the constructor exists
so that claims about it can be stated. -/
inductive ApiError where
  | invalidState
deriving Repr, DecidableEq

/-- The mutable state of a `LambdaRestApi` instance (`apigateway.py`): its
base name, the Lambda function reference, the stage name, and the declared
resources, methods and integrations accumulated so far. The Python class
keeps no lifecycle flag; `deployed` records only that `deploy` has been
called, so lifecycle claims can be stated — no operation consults it. -/
structure LambdaRestApi where
  name : String
  lambda_function : String
  stage_name : String
  resources : List String
  methods : List String
  integrations : List Integration
  deployed : Bool
deriving Repr, DecidableEq

/-- `LambdaRestApi.__init__`: starts with no resources, methods or
integrations registered. -/
def mkLambdaRestApi (name lambda_function stage_name : String) :
    LambdaRestApi :=
  ⟨name, lambda_function, stage_name, [], [], [], false⟩

/-- The method resource name
`f"{self.name}-{resource_name}-{http_method.lower()}-method"`. -/
def method_resource_name (api resource_name http_method : String) : String :=
  api ++ "-" ++ resource_name ++ "-" ++ pyLower http_method ++ "-method"

/-- `LambdaRestApi._add_method_with_lambda_integration`: declares a method
and a Lambda-proxy integration for it, and appends the integration to the
deployment-dependency list. -/
def add_method_with_lambda_integration (s : LambdaRestApi)
    (resource_name http_method : String) : LambdaRestApi :=
  { s with
    methods := s.methods ++
      [method_resource_name s.name resource_name http_method],
    integrations := s.integrations ++
      [⟨method_resource_name s.name resource_name http_method ++
        "-integration"⟩] }

/-- The `methods` default of `add_proxy_route` / `add_root_route`: Python
substitutes `["ANY"]` only when the argument is `None`; an explicit empty
list is kept as-is. -/
def defaultMethods (methods : Option (List String)) : List String :=
  match methods with
  | none => ["ANY"]
  | some ms => ms

/-- `LambdaRestApi.add_proxy_route`: declares a child resource for the path
(sanitizing `{`, `}`, `+` in its name) and one method+integration pair per
requested HTTP method. -/
def add_proxy_route (s : LambdaRestApi) (path : String)
    (methods : Option (List String)) : Except ApiError LambdaRestApi :=
  let ms := defaultMethods methods
  let resource_name := s.name ++ "-resource-" ++
    pyReplaceChar (pyReplaceChar (pyReplaceChar path '\x7b' "") '\x7d' "")
      '+' "plus"
  let s1 := { s with resources := s.resources ++ [resource_name] }
  .ok (ms.foldl
    (fun st m => add_method_with_lambda_integration st path m) s1)

/-- `LambdaRestApi.add_root_route`: one method+integration pair per requested
HTTP method on the root resource. -/
def add_root_route (s : LambdaRestApi)
    (methods : Option (List String)) : Except ApiError LambdaRestApi :=
  .ok ((defaultMethods methods).foldl
    (fun st m => add_method_with_lambda_integration st "root" m) s)

/-- An `aws.apigateway.Deployment`: its name and the `depends_on` list it was
declared with. -/
structure Deployment where
  name : String
  depends_on : List Integration
deriving Repr, DecidableEq

/-- An `aws.apigateway.Stage`: its name, stage label, and the deployment it
is bound to. -/
structure Stage where
  name : String
  stage_name : String
  deployment : Deployment
deriving Repr, DecidableEq

/-- `LambdaRestApi.deploy`: declares a deployment depending on every
integration registered so far, and a stage bound to it. -/
def deploy (s : LambdaRestApi) : Except ApiError (LambdaRestApi × Stage) :=
  let deployment : Deployment := ⟨s.name ++ "-deployment", s.integrations⟩
  .ok ({ s with deployed := true },
       ⟨s.name ++ "-stage", s.stage_name, deployment⟩)

/-- The integrations in a stage's dependency closure: the stage depends on
its deployment, which carries the explicit `depends_on` edges. -/
def stage_dependency_closure (st : Stage) : List Integration :=
  st.deployment.depends_on

/-- The account/region metadata of the `_config` singleton
(`common/config.py`), passed explicitly. -/
structure AwsConfig where
  account_id : String
  region_name : String
deriving Repr, DecidableEq

/-- An `aws.s3.Bucket` declaration: resource name, bucket name, tags. -/
structure Bucket where
  resource_name : String
  bucket : String
  tags : List (String × String)
deriving Repr, DecidableEq

/-- An `aws.s3.BucketVersioning` declaration (`enable_versioning`). -/
structure BucketVersioning where
  resource_name : String
  bucket : String
  status : String
deriving Repr, DecidableEq

/-- An `aws.s3.BucketServerSideEncryptionConfiguration` declaration
(`enable_encryption`). -/
structure BucketEncryption where
  resource_name : String
  bucket : String
  sse_algorithm : String
  bucket_key_enabled : Bool
deriving Repr, DecidableEq

/-- An `aws.s3.BucketPublicAccessBlock` declaration
(`enable_public_access_block`). -/
structure BucketPublicAccessBlock where
  resource_name : String
  bucket : String
  block_public_acls : Bool
  block_public_policy : Bool
  ignore_public_acls : Bool
  restrict_public_buckets : Bool
deriving Repr, DecidableEq

/-- The `S3BucketResources` dataclass of `common/s3.py`. -/
structure S3BucketResources where
  bucket : Bucket
  versioning : Option BucketVersioning
  encryption : Option BucketEncryption
  public_access_block : Option BucketPublicAccessBlock
deriving Repr, DecidableEq

/-- `enable_versioning` of `common/s3.py`. -/
def enable_versioning (bucket : Bucket) (pfx : String) : BucketVersioning :=
  ⟨pfx ++ "-versioning", bucket.resource_name, "Enabled"⟩

/-- `enable_encryption` of `common/s3.py`. -/
def enable_encryption (bucket : Bucket) (pfx : String) : BucketEncryption :=
  ⟨pfx ++ "-encryption", bucket.resource_name, "AES256", true⟩

/-- `enable_public_access_block` of `common/s3.py`. -/
def enable_public_access_block (bucket : Bucket) (pfx : String) :
    BucketPublicAccessBlock :=
  ⟨pfx ++ "-pab", bucket.resource_name, true, true, true, true⟩

/-- `create_s3_bucket` of `common/s3.py`: derives the bucket name
`f"{name_prefix}-{account_id}-{region_name}"`, declares the bucket, and
declares each optional hardening resource exactly when its flag is set. -/
def create_s3_bucket (cfg : AwsConfig) (pfx : String)
    (versioning encryption public_access_block : Bool)
    (tags : Option (List (String × String))) : S3BucketResources :=
  let bucket_name := pfx ++ "-" ++ cfg.account_id ++ "-" ++ cfg.region_name
  let bucket : Bucket := ⟨pfx ++ "-bucket", bucket_name, tags.getD []⟩
  let versioning_resource :=
    if versioning then some (enable_versioning bucket pfx) else none
  let encryption_resource :=
    if encryption then some (enable_encryption bucket pfx) else none
  let public_access_block_resource :=
    if public_access_block then some (enable_public_access_block bucket pfx)
    else none
  ⟨bucket, versioning_resource, encryption_resource,
   public_access_block_resource⟩

/-- An `aws.dynamodb.Table` declaration. -/
structure DynamoTable where
  resource_name : String
  name : String
  billing_mode : String
  hash_key : String
  attributes : Option (List (String × String))
  tags : Option (List (String × String))
deriving Repr, DecidableEq

/-- `create_dynamodb_table` of `common/dynamoDB.py`: the table name is
`f"{name_prefix}-{account_id}"` (the region is not part of it). -/
def create_dynamodb_table (cfg : AwsConfig) (pfx : String) (hash_key : String)
    (attributes : Option (List (String × String)))
    (tags : Option (List (String × String))) : DynamoTable :=
  ⟨pfx, pfx ++ "-" ++ cfg.account_id, "PAY_PER_REQUEST", hash_key,
   attributes, tags⟩

/-- A versioned IAM policy document, pre-serialization
(`{"Version": ..., "Statement": ...}`). -/
structure PolicyDocument where
  Version : String
  Statement : List PolicyStatement
deriving Repr, DecidableEq

/-- An `aws.iam.RolePolicy` declaration: resource name, attached role, and
the policy document it serializes. -/
structure RolePolicy where
  resource_name : String
  role : String
  policy : PolicyDocument
deriving Repr, DecidableEq

/-- `create_custom_policy` of `common/iam.py`: wraps the given statements in
a document with the fixed version tag. -/
def create_custom_policy (pfx : String) (role : String)
    (policy_statements : List PolicyStatement) : RolePolicy :=
  ⟨pfx ++ "-custom-policy", role, ⟨"2012-10-17", policy_statements⟩⟩

/-- `create_dynamodb_policy` of `app_layer/iam_policies.py`: synthesizes the
single DynamoDB statement and wraps it in a versioned document. -/
def create_dynamodb_policy (pfx : String) (role : String) (table_arn : String)
    (access_level : String) : Except PolicyError RolePolicy :=
  (create_dynamodb_policy_statement table_arn access_level).map
    (fun st => ⟨pfx ++ "-dynamodb-policy", role, ⟨"2012-10-17", [st]⟩⟩)

/-- `create_s3_policy` of `app_layer/iam_policies.py`: synthesizes the S3
statement list and wraps it in a versioned document. -/
def create_s3_policy (pfx : String) (role : String) (bucket_arn : String)
    (access_level : String) : Except PolicyError RolePolicy :=
  (create_s3_policy_statement bucket_arn access_level).map
    (fun stmts => ⟨pfx ++ "-s3-policy", role, ⟨"2012-10-17", stmts⟩⟩)

/-- A key is absent from a policy table exactly when it is not among the
table's keys (Python `key not in dict`). -/
theorem lookupPolicy_eq_none_iff (tbl : List (String × PolicyConfig))
    (k : String) : lookupPolicy tbl k = none ↔ k ∉ policyKeys tbl := by
  simp only [lookupPolicy, policyKeys, List.mem_map]
  rw [Option.map_eq_none', List.find?_eq_none]
  constructor
  · rintro h ⟨⟨k1, cfg⟩, hmem, hk⟩
    exact absurd (beq_iff_eq.mpr hk) (h _ hmem)
  · rintro h p hmem hbeq
    exact h ⟨p, hmem, beq_iff_eq.mp hbeq⟩

/-- A successful lookup means the key is among the table's keys. -/
theorem mem_policyKeys_of_lookup (tbl : List (String × PolicyConfig))
    (k : String) (cfg : PolicyConfig) (h : lookupPolicy tbl k = some cfg) :
    k ∈ policyKeys tbl := by
  by_contra hk
  rw [← lookupPolicy_eq_none_iff] at hk
  simp [hk] at h

end Pulumi

namespace Pulumi

/-- C1: for every non-empty bucket ARN and every recognized S3 access level,
`create_s3_policy_statement` returns: for `list_only`, exactly one statement
whose `Resource` is the ARN unchanged; otherwise, one statement per non-empty
part of the partition of the static action list into actions without
`"Object"` in the name (scoped to the ARN) and actions with `"Object"`
(scoped to `arn ++ "/*"`), every statement with effect `Allow`; in
particular for `read_only` the container actions are `["s3:ListBucket"]` and
the object actions `["s3:GetObject", "s3:GetObjectVersion",
"s3:GetObjectAcl"]`. -/
theorem claim_C1_s3_statement_partition (arn lvl : String) (harn : arn ≠ "")
    (hlvl : lvl ∈ policyKeys S3_POLICIES) :
    (lvl = "list_only" →
      create_s3_policy_statement arn lvl =
        .ok [⟨"Allow", ["s3:ListBucket"], arn⟩]) ∧
    (lvl ≠ "list_only" →
      ∃ cfg stmts, lookupPolicy S3_POLICIES lvl = some cfg ∧
        create_s3_policy_statement arn lvl = .ok stmts ∧
        (∀ st ∈ stmts, st.Effect = "Allow") ∧
        stmts.map PolicyStatement.Action =
          ((if (cfg.actions.filter
                (fun a => !(strContains a "Object"))).isEmpty then []
            else [cfg.actions.filter (fun a => !(strContains a "Object"))]) ++
           (if (cfg.actions.filter
                (fun a => strContains a "Object")).isEmpty then []
            else [cfg.actions.filter (fun a => strContains a "Object")])) ∧
        stmts.map PolicyStatement.Resource =
          ((if (cfg.actions.filter
                (fun a => !(strContains a "Object"))).isEmpty then []
            else [arn]) ++
           (if (cfg.actions.filter
                (fun a => strContains a "Object")).isEmpty then []
            else [arn ++ "/*"]))) ∧
    (lvl = "read_only" →
      create_s3_policy_statement arn lvl =
        .ok [⟨"Allow", ["s3:ListBucket"], arn⟩,
             ⟨"Allow",
              ["s3:GetObject", "s3:GetObjectVersion", "s3:GetObjectAcl"],
              arn ++ "/*"⟩]) := by
  have h : lvl = "full_access" ∨ lvl = "read_only" ∨ lvl = "write_only" ∨
      lvl = "list_only" := by
    simpa [policyKeys, S3_POLICIES] using hlvl
  rcases h with rfl | rfl | rfl | rfl
  · exact ⟨fun h => absurd h (by decide),
      fun _ =>
        ⟨⟨"Full access to S3 bucket and objects",
          ["s3:GetObject", "s3:PutObject", "s3:DeleteObject", "s3:ListBucket",
           "s3:GetObjectVersion", "s3:DeleteObjectVersion", "s3:PutObjectAcl",
           "s3:GetObjectAcl"]⟩,
         [⟨"Allow", ["s3:ListBucket"], arn⟩,
          ⟨"Allow",
           ["s3:GetObject", "s3:PutObject", "s3:DeleteObject",
            "s3:GetObjectVersion", "s3:DeleteObjectVersion", "s3:PutObjectAcl",
            "s3:GetObjectAcl"], arn ++ "/*"⟩],
         rfl, rfl, by simp, rfl, rfl⟩,
      fun h => absurd h (by decide)⟩
  · exact ⟨fun h => absurd h (by decide),
      fun _ =>
        ⟨⟨"Read-only access to S3 bucket and objects",
          ["s3:GetObject", "s3:ListBucket", "s3:GetObjectVersion",
           "s3:GetObjectAcl"]⟩,
         [⟨"Allow", ["s3:ListBucket"], arn⟩,
          ⟨"Allow",
           ["s3:GetObject", "s3:GetObjectVersion", "s3:GetObjectAcl"],
           arn ++ "/*"⟩],
         rfl, rfl, by simp, rfl, rfl⟩, fun _ => rfl⟩
  · exact ⟨fun h => absurd h (by decide),
      fun _ =>
        ⟨⟨"Write-only access to S3 bucket and objects",
          ["s3:PutObject", "s3:DeleteObject", "s3:DeleteObjectVersion",
           "s3:PutObjectAcl"]⟩,
         [⟨"Allow",
           ["s3:PutObject", "s3:DeleteObject", "s3:DeleteObjectVersion",
            "s3:PutObjectAcl"], arn ++ "/*"⟩],
         rfl, rfl, by simp, rfl, rfl⟩,
      fun h => absurd h (by decide)⟩
  · exact ⟨fun _ => rfl, fun h => absurd rfl h,
      fun h => absurd h (by decide)⟩

/-- Witness for C1 at `arn = "arn:bucket/Y"`, `lvl = "read_only"`: the
end-to-end scenario of the specification. -/
theorem claim_C1_witness :
    create_s3_policy_statement "arn:bucket/Y" "read_only" =
      .ok [⟨"Allow", ["s3:ListBucket"], "arn:bucket/Y"⟩,
           ⟨"Allow",
            ["s3:GetObject", "s3:GetObjectVersion", "s3:GetObjectAcl"],
            "arn:bucket/Y/*"⟩] :=
  (claim_C1_s3_statement_partition "arn:bucket/Y" "read_only"
    (by decide) (by decide)).2.2 rfl

/-- C2: each statement synthesizer fails exactly when the access level is not
among the recognized keys for its resource kind, and on failure the error is
`invalidAccessLevel` carrying the offending value and the valid key set
(no statement is returned, the `Except` being in its error branch). -/
theorem claim_C2_invalid_access_level (arn lvl : String) :
    ((∃ e, create_dynamodb_policy_statement arn lvl = .error e) ↔
      lvl ∉ policyKeys DYNAMODB_POLICIES) ∧
    (lvl ∉ policyKeys DYNAMODB_POLICIES →
      create_dynamodb_policy_statement arn lvl =
        .error (.invalidAccessLevel lvl (policyKeys DYNAMODB_POLICIES))) ∧
    ((∃ e, create_s3_policy_statement arn lvl = .error e) ↔
      lvl ∉ policyKeys S3_POLICIES) ∧
    (lvl ∉ policyKeys S3_POLICIES →
      create_s3_policy_statement arn lvl =
        .error (.invalidAccessLevel lvl (policyKeys S3_POLICIES))) := by
  refine ⟨?_, ?_, ?_, ?_⟩
  · rcases h : lookupPolicy DYNAMODB_POLICIES lvl with _ | cfg
    · simp only [create_dynamodb_policy_statement, h]
      exact ⟨fun _ => (lookupPolicy_eq_none_iff _ _).mp h, fun _ => ⟨_, rfl⟩⟩
    · have hk := mem_policyKeys_of_lookup _ _ _ h
      simp [create_dynamodb_policy_statement, h, hk]
  · intro hk
    rw [← lookupPolicy_eq_none_iff] at hk
    simp [create_dynamodb_policy_statement, hk]
  · rcases h : lookupPolicy S3_POLICIES lvl with _ | cfg
    · simp only [create_s3_policy_statement, h]
      exact ⟨fun _ => (lookupPolicy_eq_none_iff _ _).mp h, fun _ => ⟨_, rfl⟩⟩
    · have hk := mem_policyKeys_of_lookup _ _ _ h
      simp only [create_s3_policy_statement, h]
      constructor
      · split
        · rintro ⟨e, he⟩
          simp at he
        · rintro ⟨e, he⟩
          simp at he
      · intro hc
        exact absurd hk hc
  · intro hk
    rw [← lookupPolicy_eq_none_iff] at hk
    simp [create_s3_policy_statement, hk]

/-- Witness for C2 at the unrecognized access level `"invalid"`. -/
theorem claim_C2_witness :
    create_dynamodb_policy_statement "a" "invalid" =
      .error (.invalidAccessLevel "invalid"
        ["full_access", "read_only", "write_only"]) ∧
    create_s3_policy_statement "a" "invalid" =
      .error (.invalidAccessLevel "invalid"
        ["full_access", "read_only", "write_only", "list_only"]) :=
  ⟨(claim_C2_invalid_access_level "a" "invalid").2.1 (by decide),
   (claim_C2_invalid_access_level "a" "invalid").2.2.2 (by decide)⟩

/-- C5: `create_dynamodb_policy_statement` at access level `full_access`
returns exactly one statement whose action list is the 8 DynamoDB actions of
the static `full_access` entry, whose `Resource` is the table ARN unchanged
and whose effect is `Allow`. -/
theorem claim_C5_dynamodb_full_access (arn : String) :
    create_dynamodb_policy_statement arn "full_access" =
      .ok ⟨"Allow",
        ["dynamodb:PutItem", "dynamodb:GetItem", "dynamodb:UpdateItem",
         "dynamodb:DeleteItem", "dynamodb:Scan", "dynamodb:Query",
         "dynamodb:BatchGetItem", "dynamodb:BatchWriteItem"], arn⟩ := rfl

/-- Folding route methods over a state appends one integration per method. -/
theorem foldl_add_method_integrations (ms : List String)
    (s : LambdaRestApi) (rn : String) :
    (ms.foldl (fun st m => add_method_with_lambda_integration st rn m)
        s).integrations.length = s.integrations.length + ms.length := by
  induction ms generalizing s with
  | nil => simp
  | cons m rest ih =>
    simp only [List.foldl_cons, ih, List.length_cons]
    simp [add_method_with_lambda_integration]
    omega

/-- C3: the deployment produced by `deploy` depends on exactly the
integrations registered before the call — any integration absent from the
pre-call state is absent from the stage's dependency closure — and the
root-route + proxy-route composition (catch-all method each) yields a stage
whose dependency closure has exactly 2 integrations. -/
theorem claim_C3_deploy_dependency_closure :
    (∀ s s2 stage, deploy s = .ok (s2, stage) →
      stage_dependency_closure stage = s.integrations) ∧
    (∀ s s2 stage, deploy s = .ok (s2, stage) →
      ∀ i, i ∉ s.integrations → i ∉ stage_dependency_closure stage) ∧
    (∀ name fn stg s1 s2 s3 stage,
      add_root_route (mkLambdaRestApi name fn stg) (some ["ANY"]) = .ok s1 →
      add_proxy_route s1 "\x7bproxy+\x7d" (some ["ANY"]) = .ok s2 →
      deploy s2 = .ok (s3, stage) →
      (stage_dependency_closure stage).length = 2) := by
  refine ⟨?_, ?_, ?_⟩
  · intro s s2 stage h
    obtain ⟨-, h2⟩ := Prod.mk.injEq .. ▸ Except.ok.inj h
    subst h2
    rfl
  · intro s s2 stage h
    obtain ⟨-, h2⟩ := Prod.mk.injEq .. ▸ Except.ok.inj h
    subst h2
    exact fun i hi => hi
  · intro name fn stg s1 s2 s3 stage h1 h2 h3
    obtain rfl := (Except.ok.inj h1).symm
    obtain rfl := (Except.ok.inj h2).symm
    obtain ⟨-, h4⟩ := Prod.mk.injEq .. ▸ Except.ok.inj h3
    subst h4
    rfl

/-- Witness for C3 on the concrete composition named `"app"`. -/
theorem claim_C3_witness :
    (stage_dependency_closure
      ⟨"app" ++ "-stage", "dev",
       ⟨"app" ++ "-deployment",
        [⟨method_resource_name "app" "root" "ANY" ++ "-integration"⟩,
         ⟨method_resource_name "app" "\x7bproxy+\x7d" "ANY" ++
          "-integration"⟩]⟩⟩).length = 2 :=
  claim_C3_deploy_dependency_closure.2.2 "app" "f" "dev" _ _ _ _ rfl rfl rfl

/-- C4 counterexample: on a freshly deployed instance, both route-adding
operations succeed (returning `.ok`), instead of failing with
`InvalidState` as the claim requires. -/
theorem claim_C4_counterexample :
    deploy (mkLambdaRestApi "app" "f" "dev") =
      .ok (⟨"app", "f", "dev", [], [], [], true⟩,
           ⟨"app" ++ "-stage", "dev", ⟨"app" ++ "-deployment", []⟩⟩) ∧
    add_root_route (⟨"app", "f", "dev", [], [], [], true⟩ : LambdaRestApi)
        none ≠ .error .invalidState ∧
    add_proxy_route (⟨"app", "f", "dev", [], [], [], true⟩ : LambdaRestApi)
        "\x7bproxy+\x7d" none ≠ .error .invalidState ∧
    add_root_route (⟨"app", "f", "dev", [], [], [], true⟩ : LambdaRestApi)
        none =
      .ok ⟨"app", "f", "dev", [],
           [method_resource_name "app" "root" "ANY"],
           [⟨method_resource_name "app" "root" "ANY" ++ "-integration"⟩],
           true⟩ :=
  by
  refine ⟨rfl, ?_, ?_, rfl⟩
  · intro h
    exact Except.noConfusion h
  · intro h
    exact Except.noConfusion h

/-- C4 amended: `LambdaRestApi` keeps no lifecycle state, so after `deploy`
has been called both `add_root_route` and `add_proxy_route` still succeed
(no `InvalidState` is ever raised) and register one integration per
requested method as usual. -/
theorem claim_C4_routes_after_deploy_succeed (s : LambdaRestApi)
    (h : s.deployed = true) (ms : Option (List String)) (path : String) :
    (∃ t, add_root_route s ms = .ok t ∧
      t.integrations.length =
        s.integrations.length + (defaultMethods ms).length) ∧
    (∃ t, add_proxy_route s path ms = .ok t ∧
      t.integrations.length =
        s.integrations.length + (defaultMethods ms).length) := by
  refine ⟨⟨_, rfl, ?_⟩, ⟨_, rfl, ?_⟩⟩
  · exact foldl_add_method_integrations _ _ _
  · exact foldl_add_method_integrations _ _ _

/-- Witness for the amended C4 on a concrete deployed instance. -/
theorem claim_C4_witness :
    (∃ t, add_root_route
        (⟨"app", "f", "dev", [], [], [], true⟩ : LambdaRestApi) none =
        .ok t ∧ t.integrations.length = 0 + 1) ∧
    (∃ t, add_proxy_route
        (⟨"app", "f", "dev", [], [], [], true⟩ : LambdaRestApi)
        "\x7bproxy+\x7d" none = .ok t ∧ t.integrations.length = 0 + 1) :=
  claim_C4_routes_after_deploy_succeed
    ⟨"app", "f", "dev", [], [], [], true⟩ rfl none "\x7bproxy+\x7d"

/-- C6 counterexample: `deploy` on a fresh instance with zero registered
routes succeeds and yields a stage, so a deployment result is reachable
without any route, contrary to the claim. -/
theorem claim_C6_counterexample :
    deploy (mkLambdaRestApi "api" "fn" "prod") =
      .ok (⟨"api", "fn", "prod", [], [], [], true⟩,
           ⟨"api" ++ "-stage", "prod", ⟨"api" ++ "-deployment", []⟩⟩) := rfl

/-- C6 amended: `deploy` performs no route-count check; on a fresh instance
with zero registered integrations it succeeds and yields a stage whose
dependency closure is empty. -/
theorem claim_C6_deploy_without_routes (name fn stg : String) :
    ∃ s2 stage, deploy (mkLambdaRestApi name fn stg) = .ok (s2, stage) ∧
      stage_dependency_closure stage = [] :=
  ⟨_, _, rfl, rfl⟩

/-- C7 counterexample: an explicit empty `methods` list registers zero
integrations (the state is returned unchanged), while the omitted argument
registers one `ANY` integration — so the empty list does not default to the
catch-all verb as the claim states. -/
theorem claim_C7_counterexample :
    add_root_route (mkLambdaRestApi "app" "f" "dev") (some []) =
      .ok (mkLambdaRestApi "app" "f" "dev") ∧
    add_root_route (mkLambdaRestApi "app" "f" "dev") none =
      .ok ⟨"app", "f", "dev", [],
           [method_resource_name "app" "root" "ANY"],
           [⟨method_resource_name "app" "root" "ANY" ++ "-integration"⟩],
           false⟩ :=
  ⟨rfl, rfl⟩

/-- C7 amended: only an omitted (`None`) `methods` argument defaults to
`["ANY"]` and registers exactly one route+integration pair; an explicit
empty list registers none (`add_root_route` leaves the state unchanged, and
`add_proxy_route` declares only the path resource). -/
theorem claim_C7_empty_methods_registers_nothing (s : LambdaRestApi)
    (path : String) :
    add_root_route s (some []) = .ok s ∧
    (∃ t, add_proxy_route s path (some []) = .ok t ∧
      t.integrations = s.integrations ∧ t.methods = s.methods) ∧
    (∃ t, add_root_route s none = .ok t ∧
      t.integrations = s.integrations ++
        [⟨method_resource_name s.name "root" "ANY" ++ "-integration"⟩]) ∧
    (∃ t, add_proxy_route s path none = .ok t ∧
      t.integrations = s.integrations ++
        [⟨method_resource_name s.name path "ANY" ++ "-integration"⟩]) :=
  ⟨rfl, ⟨_, rfl, rfl, rfl⟩, ⟨_, rfl, rfl⟩, ⟨_, rfl, rfl⟩⟩

/-- C8 counterexample: the DynamoDB table name computed by
`create_dynamodb_table` is `"state-111122223333"` — the prefix and account
only — and not the claimed `"{prefix}-{accountId}-{region}"` pattern. -/
theorem claim_C8_counterexample :
    (create_dynamodb_table ⟨"111122223333", "eu-west-1"⟩ "state" "id"
        none none).name = "state-111122223333" ∧
    (create_dynamodb_table ⟨"111122223333", "eu-west-1"⟩ "state" "id"
        none none).name ≠ "state-111122223333-eu-west-1" := by
  exact ⟨rfl, by decide⟩

/-- C8 amended: the S3 bucket name follows
`"{prefix}-{accountId}-{region}"`, but the DynamoDB table name is
`"{prefix}-{accountId}"` — the region is not part of it. -/
theorem claim_C8_resource_naming (cfg : AwsConfig) (pfx hash_key : String)
    (v e p : Bool) (tags : Option (List (String × String)))
    (attrs : Option (List (String × String))) :
    (create_s3_bucket cfg pfx v e p tags).bucket.bucket =
      pfx ++ "-" ++ cfg.account_id ++ "-" ++ cfg.region_name ∧
    (create_dynamodb_table cfg pfx hash_key attrs tags).name =
      pfx ++ "-" ++ cfg.account_id :=
  ⟨rfl, rfl⟩

/-- C9: `create_s3_bucket` always populates the bucket field, and each of
the optional versioning / encryption / public-access-block resources is
present in the returned bundle exactly when the corresponding boolean flag
is set. -/
theorem claim_C9_optional_bucket_resources (cfg : AwsConfig) (pfx : String)
    (v e p : Bool) (tags : Option (List (String × String))) :
    (create_s3_bucket cfg pfx v e p tags).bucket =
      ⟨pfx ++ "-bucket",
       pfx ++ "-" ++ cfg.account_id ++ "-" ++ cfg.region_name,
       tags.getD []⟩ ∧
    ((create_s3_bucket cfg pfx v e p tags).versioning.isSome ↔ v = true) ∧
    ((create_s3_bucket cfg pfx v e p tags).encryption.isSome ↔ e = true) ∧
    ((create_s3_bucket cfg pfx v e p tags).public_access_block.isSome ↔
      p = true) := by
  refine ⟨rfl, ?_, ?_, ?_⟩ <;>
    cases v <;> cases e <;> cases p <;> simp [create_s3_bucket]

/-- C10: every policy document assembled by `create_custom_policy`,
`create_dynamodb_policy` and `create_s3_policy` carries the version tag
`"2012-10-17"`, the latter two whenever statement synthesis succeeds. -/
theorem claim_C10_policy_document_version (pfx role arn lvl : String)
    (stmts : List PolicyStatement) :
    (create_custom_policy pfx role stmts).policy.Version = "2012-10-17" ∧
    (∀ rp, create_dynamodb_policy pfx role arn lvl = .ok rp →
      rp.policy.Version = "2012-10-17") ∧
    (∀ rp, create_s3_policy pfx role arn lvl = .ok rp →
      rp.policy.Version = "2012-10-17") := by
  refine ⟨rfl, ?_, ?_⟩
  · intro rp h
    unfold create_dynamodb_policy at h
    rcases hd : create_dynamodb_policy_statement arn lvl with e | st <;>
      rw [hd] at h
    · simp [Except.map] at h
    · obtain rfl := (Except.ok.inj h).symm
      rfl
  · intro rp h
    unfold create_s3_policy at h
    rcases hd : create_s3_policy_statement arn lvl with e | st <;>
      rw [hd] at h
    · simp [Except.map] at h
    · obtain rfl := (Except.ok.inj h).symm
      rfl

/-- Witness for C10 at concrete inputs with successful synthesis. -/
theorem claim_C10_witness :
    (create_custom_policy "app" "r" []).policy.Version = "2012-10-17" ∧
    (create_dynamodb_policy "app" "r" "arn:table/X"
        "full_access").map (fun rp => rp.policy.Version) =
      .ok "2012-10-17" ∧
    (create_s3_policy "app" "r" "arn:bucket/Y"
        "read_only").map (fun rp => rp.policy.Version) = .ok "2012-10-17" :=
  ⟨(claim_C10_policy_document_version "app" "r" "arn:table/X" "full_access"
      []).1,
   by
    rw [show create_dynamodb_policy "app" "r" "arn:table/X" "full_access" =
        .ok ⟨"app" ++ "-dynamodb-policy", "r",
          ⟨"2012-10-17",
           [⟨"Allow",
             ["dynamodb:PutItem", "dynamodb:GetItem", "dynamodb:UpdateItem",
              "dynamodb:DeleteItem", "dynamodb:Scan", "dynamodb:Query",
              "dynamodb:BatchGetItem", "dynamodb:BatchWriteItem"],
             "arn:table/X"⟩]⟩⟩ from rfl]
    exact congrArg Except.ok
      ((claim_C10_policy_document_version "app" "r" "arn:table/X"
        "full_access" []).2.1 _ rfl),
   by
    rw [show create_s3_policy "app" "r" "arn:bucket/Y" "read_only" =
        .ok ⟨"app" ++ "-s3-policy", "r",
          ⟨"2012-10-17",
           [⟨"Allow", ["s3:ListBucket"], "arn:bucket/Y"⟩,
            ⟨"Allow",
             ["s3:GetObject", "s3:GetObjectVersion", "s3:GetObjectAcl"],
             "arn:bucket/Y/*"⟩]⟩⟩ from rfl]
    exact congrArg Except.ok
      ((claim_C10_policy_document_version "app" "r" "arn:bucket/Y"
        "read_only" []).2.2 _ rfl)⟩

end Pulumi
